import Mathlib

/- Shallow embedding of the task-graph resolution engine in
   src/python/knext/knext/ca/common/base.py (classes Question, KagBaseModule
   and Agent).  Mutable Python lists and dicts are modelled as references
   (Nat indices) into explicit heaps, so that Python's aliasing semantics
   (shared mutable default arguments, dict rebinding without reconnecting
   observers) is captured faithfully. -/

/- ===== Heap of mutable Nat-lists (models Python list objects used for
   Question.dependencies / Question.children; list elements are node ids). -/

/-- A heap of mutable lists; a Python list object is a `Nat` index into it. -/
structure ListHeap where
  lists : List (List Nat)
deriving DecidableEq

/-- Dereference a list object (reading a dangling reference yields `[]`). -/
def ListHeap.read (h : ListHeap) (r : Nat) : List Nat :=
  (h.lists[r]?).getD []

/-- In-place `list.append(x)` through reference `r`. -/
def ListHeap.append (h : ListHeap) (r : Nat) (x : Nat) : ListHeap :=
  ⟨h.lists.set r (h.read r ++ [x])⟩

/-- The module-level default object bound to the `dependencies=[]` default
    argument of `Question.__init__`.  Python evaluates default arguments once,
    at function definition time, so this is a single shared object. -/
def defaultDepsRef : Nat := 0

/-- The module-level default object bound to the `children=[]` default
    argument of `Question.__init__`. -/
def defaultChildrenRef : Nat := 1

/-- The heap as it stands after the module is loaded: the two default-argument
    list objects exist and are empty. -/
def moduleHeap : ListHeap := ⟨[[], []]⟩

/- ===== Question (base.py lines 7-76). -/

/-- Embedding of `Question`.  `depsRef`/`childrenRef` are references into a
    `ListHeap` (Python list objects are aliased, not owned).  The `parent`
    back-reference is folded into the constructors (`mk` for `parent=None`,
    `mkWithParent` otherwise) so that a parent chain is structurally finite,
    which is exactly the finite-acyclic-chain hypothesis under which the
    depth computation of the source terminates. -/
inductive Question : Type where
  | mk (question : String) (depsRef : Nat) (childrenRef : Nat)
      (answer : Option String) (context : Option String) : Question
  | mkWithParent (question : String) (depsRef : Nat) (childrenRef : Nat)
      (parent : Question) (answer : Option String) (context : Option String) : Question

/-- Field `self.question`. -/
def Question.question : Question → String
  | .mk s _ _ _ _ => s
  | .mkWithParent s _ _ _ _ _ => s

/-- Field `self.dependencies` (the reference the constructor bound). -/
def Question.depsRef : Question → Nat
  | .mk _ d _ _ _ => d
  | .mkWithParent _ d _ _ _ _ => d

/-- Field `self.children` (the reference the constructor bound). -/
def Question.childrenRef : Question → Nat
  | .mk _ _ c _ _ => c
  | .mkWithParent _ _ c _ _ _ => c

/-- Field `self.parent`. -/
def Question.parent : Question → Option Question
  | .mk _ _ _ _ _ => none
  | .mkWithParent _ _ _ p _ _ => some p

/-- Field `self.answer`. -/
def Question.answer : Question → Option String
  | .mk _ _ _ a _ => a
  | .mkWithParent _ _ _ _ a _ => a

/-- Field `self.context`. -/
def Question.context : Question → Option String
  | .mk _ _ _ _ c => c
  | .mkWithParent _ _ _ _ _ c => c

/-- `Question.__init__` (base.py lines 19-34): binds the passed references and
    unconditionally sets `self.answer = None`. -/
def Question.init (question : String) (dependencies : Nat) (children : Nat)
    (parent : Option Question) (context : Option String) : Question :=
  match parent with
  | none => .mk question dependencies children none context
  | some p => .mkWithParent question dependencies children p none context

/-- A `Question(question)` call that supplies neither `dependencies` nor
    `children`: Python binds both to the module-level default list objects. -/
def Question.initDefault (question : String) : Question :=
  Question.init question defaultDepsRef defaultChildrenRef none none

/-- `Question.is_solved` (base.py lines 36-37): `self.answer is not None`. -/
def Question.is_solved (q : Question) : Bool :=
  match q.answer with
  | none => false
  | some _ => true

/-- The `while now.parent:` loop of `get_current_depth` (base.py lines 45-50),
    with `now_depth` as the accumulator. -/
def Question.get_current_depth_loop : Nat → Question → Nat
  | now_depth, .mk _ _ _ _ _ => now_depth
  | now_depth, .mkWithParent _ _ _ p _ _ =>
      Question.get_current_depth_loop (now_depth + 1) p

/-- `Question.get_current_depth` (base.py lines 39-50). -/
def Question.get_current_depth (q : Question) : Nat :=
  Question.get_current_depth_loop 1 q

/- ===== Helper lemmas for the depth loop. -/

theorem get_current_depth_loop_succ :
    ∀ (q : Question) (d : Nat),
      Question.get_current_depth_loop (d + 1) q
        = Question.get_current_depth_loop d q + 1 := by
  intro q
  induction q with
  | mk s dr cr a c =>
      intro d
      rfl
  | mkWithParent s dr cr p a c ih =>
      intro d
      show Question.get_current_depth_loop (d + 1 + 1) p
        = Question.get_current_depth_loop (d + 1) p + 1
      exact ih (d + 1)

/- ===== Claims about Question. -/

/-- Claim C3 counterexample: the claim states that two distinct default-constructed
    nodes have independent dependency sequences, so that appending through one
    leaves the other's sequence unchanged.  In the source both bind the single
    module-level default list object, so the mutation is visible through the
    other node. -/
theorem question_default_deps_not_independent :
    ¬ ((moduleHeap.append (Question.initDefault "a").depsRef 7).read
          (Question.initDefault "b").depsRef
        = moduleHeap.read (Question.initDefault "b").depsRef) := by
  decide

/-- Claim C3 (amended): every pair of Question nodes constructed without explicit
    dependency or children arguments shares the same default list object for
    dependencies and for children, and a mutation performed through one node's
    sequence is visible when reading through the other node's sequence. -/
theorem question_default_sequences_shared :
    ∀ (s t : String) (x : Nat),
      (Question.initDefault s).depsRef = (Question.initDefault t).depsRef ∧
      (Question.initDefault s).childrenRef = (Question.initDefault t).childrenRef ∧
      (moduleHeap.append (Question.initDefault s).depsRef x).read
          (Question.initDefault t).depsRef = [x] ∧
      (moduleHeap.append (Question.initDefault s).childrenRef x).read
          (Question.initDefault t).childrenRef = [x] := by
  intro s t x
  refine ⟨rfl, rfl, ?_, ?_⟩ <;> rfl

/-- Claim C8: `is_solved` returns true exactly when `answer` holds a value, and
    it is a pure query: its result depends on nothing but the node's `answer`
    field (the embedding is a pure function, so it can change no state). -/
theorem is_solved_iff_answer_present :
    ∀ q : Question,
      (q.is_solved = true ↔ q.answer ≠ none) ∧
      (∀ q' : Question, q.answer = q'.answer → q.is_solved = q'.is_solved) := by
  intro q
  constructor
  · cases hq : q.answer <;> simp [Question.is_solved, hq]
  · intro q' hqq
    simp [Question.is_solved, hqq]

/-- Claim C8 witness: two concrete nodes with equal `answer` fields have equal
    `is_solved` results. -/
theorem is_solved_iff_answer_present_witness :
    (Question.initDefault "x").is_solved = (Question.initDefault "y").is_solved :=
  (is_solved_iff_answer_present (Question.initDefault "x")).2
    (Question.initDefault "y") rfl

/-- Claim C9: `get_current_depth` walks the (finite, acyclic by construction)
    parent chain: it returns 1 for a node without parent, and 1 plus the
    parent's depth otherwise. -/
theorem get_current_depth_spec :
    ∀ q : Question,
      (q.parent = none → q.get_current_depth = 1) ∧
      (∀ p : Question, q.parent = some p →
        q.get_current_depth = p.get_current_depth + 1) := by
  intro q
  cases q with
  | mk s dr cr a c =>
      exact ⟨fun _ => rfl, fun p hp => by simp [Question.parent] at hp⟩
  | mkWithParent s dr cr p a c =>
      constructor
      · intro h
        simp [Question.parent] at h
      · intro p' hp'
        simp only [Question.parent, Option.some.injEq] at hp'
        subst hp'
        show Question.get_current_depth_loop (1 + 1) p
          = Question.get_current_depth_loop 1 p + 1
        exact get_current_depth_loop_succ p 1

/-- Claim C9 witness: a concrete child node's depth is its root's depth plus
    one, and the root's depth is 1. -/
theorem get_current_depth_spec_witness :
    (Question.init "c" 0 1 (some (Question.init "r" 0 1 none none)) none).get_current_depth
      = (Question.init "r" 0 1 none none).get_current_depth + 1 :=
  (get_current_depth_spec
      (Question.init "c" 0 1 (some (Question.init "r" 0 1 none none)) none)).2
    (Question.init "r" 0 1 none none) rfl

/-- Claim C10: every node constructed through `Question.__init__`, for any
    combination of constructor arguments, has `answer = None` and is therefore
    unsolved: the constructor offers no way to produce an already-solved node. -/
theorem question_init_unsolved :
    ∀ (s : String) (dr cr : Nat) (par : Option Question) (ctx : Option String),
      (Question.init s dr cr par ctx).answer = none ∧
      (Question.init s dr cr par ctx).is_solved = false := by
  intro s dr cr par ctx
  cases par <;> exact ⟨rfl, rfl⟩

/- ===== Readiness gates (base.py lines 281-301). -/

/-- One pass of the `while True:` body shared by `Agent.is_question_deps_ready`
    and `Agent.is_question_children_ready`:
    `all_solved = True; for dep in nodes: if not dep.is_solved(): all_solved = False`.
    Returns the final `all_solved` flag together with the trace of the nodes on
    which `is_solved` was called, in order (the loop has no `break`, so every
    member is checked on every pass). -/
def check_loop (solved : Nat → Bool) (nodes : List Nat) : Bool × List Nat :=
  nodes.foldl
    (fun acc dep => (if ! solved dep then false else acc.1, acc.2 ++ [dep]))
    (true, [])

/-- `Agent.is_question_deps_ready` (base.py lines 281-290), one poll cycle:
    the body iterates over `question.dependencies`.  `solved d` is the
    `is_solved()` status of the node with id `d` at the time of the poll. -/
def is_question_deps_ready_pass (solved : Nat → Bool) (h : ListHeap)
    (question : Question) : Bool × List Nat :=
  check_loop solved (h.read question.depsRef)

/-- `Agent.is_question_children_ready` (base.py lines 292-301), one poll cycle:
    the body iterates over `question.children`. -/
def is_question_children_ready_pass (solved : Nat → Bool) (h : ListHeap)
    (question : Question) : Bool × List Nat :=
  check_loop solved (h.read question.childrenRef)

/-- The `while True: ... await asyncio.sleep(0.5)` wait of
    `is_question_deps_ready` completes at poll cycle `n` (after exactly `n`
    sleeps): the check passes at cycle `n` and failed at every earlier cycle.
    `solvedAt m d` is the solved status of node `d` at cycle `m`. -/
def is_question_deps_ready_completes_at (solvedAt : Nat → Nat → Bool)
    (h : ListHeap) (question : Question) (n : Nat) : Prop :=
  (is_question_deps_ready_pass (solvedAt n) h question).1 = true ∧
  ∀ m, m < n → (is_question_deps_ready_pass (solvedAt m) h question).1 = false

/-- The children-gate analogue of `is_question_deps_ready_completes_at`. -/
def is_question_children_ready_completes_at (solvedAt : Nat → Nat → Bool)
    (h : ListHeap) (question : Question) (n : Nat) : Prop :=
  (is_question_children_ready_pass (solvedAt n) h question).1 = true ∧
  ∀ m, m < n → (is_question_children_ready_pass (solvedAt m) h question).1 = false

/-- The dependency-gate wait terminates at all: some poll cycle passes. -/
def is_question_deps_ready_completes (solvedAt : Nat → Nat → Bool)
    (h : ListHeap) (question : Question) : Prop :=
  ∃ n, (is_question_deps_ready_pass (solvedAt n) h question).1 = true

/-- The children-gate wait terminates at all: some poll cycle passes. -/
def is_question_children_ready_completes (solvedAt : Nat → Nat → Bool)
    (h : ListHeap) (question : Question) : Prop :=
  ∃ n, (is_question_children_ready_pass (solvedAt n) h question).1 = true

/- ===== Helper lemmas for the gate loop. -/

theorem check_loop_foldl (solved : Nat → Bool) :
    ∀ (nodes : List Nat) (b : Bool) (tr : List Nat),
      nodes.foldl
          (fun acc dep => (if ! solved dep then false else acc.1, acc.2 ++ [dep]))
          (b, tr)
        = (b && nodes.all solved, tr ++ nodes) := by
  intro nodes
  induction nodes with
  | nil => intro b tr; simp
  | cons d ds ih =>
      intro b tr
      have hstep :
          (fun acc dep =>
            ((if ! solved dep then false else acc.1 : Bool), acc.2 ++ [dep]))
            (b, tr) d
          = ((b && solved d : Bool), tr ++ [d]) := by
        cases hd : solved d <;> simp [hd]
      simp only [List.foldl_cons, hstep, ih]
      cases hd : solved d <;> simp [hd]

theorem check_loop_fst (solved : Nat → Bool) (nodes : List Nat) :
    (check_loop solved nodes).1 = nodes.all solved := by
  unfold check_loop
  rw [check_loop_foldl]
  simp

theorem check_loop_snd (solved : Nat → Bool) (nodes : List Nat) :
    (check_loop solved nodes).2 = nodes := by
  unfold check_loop
  rw [check_loop_foldl]
  simp

/- ===== Claims about the gates. -/

/-- Claim C5: a poll cycle of the dependency gate passes exactly when every
    node in `question.dependencies` is solved at that cycle (likewise the
    children gate over `question.children`); each cycle checks every member of
    the gating set without short-circuiting (the trace of `is_solved` calls is
    the whole set, whatever the statuses); and an empty gating set satisfies
    the gate at cycle 0, i.e. on the first check, before any sleep. -/
theorem gate_pass_exact_and_total :
    ∀ (solvedAt : Nat → Nat → Bool) (h : ListHeap) (q : Question) (n : Nat),
      ((is_question_deps_ready_pass (solvedAt n) h q).1 = true ↔
        ∀ d ∈ h.read q.depsRef, solvedAt n d = true) ∧
      ((is_question_children_ready_pass (solvedAt n) h q).1 = true ↔
        ∀ c ∈ h.read q.childrenRef, solvedAt n c = true) ∧
      ((is_question_deps_ready_pass (solvedAt n) h q).2 = h.read q.depsRef) ∧
      ((is_question_children_ready_pass (solvedAt n) h q).2 = h.read q.childrenRef) ∧
      (h.read q.depsRef = [] →
        is_question_deps_ready_completes_at solvedAt h q 0) ∧
      (h.read q.childrenRef = [] →
        is_question_children_ready_completes_at solvedAt h q 0) := by
  intro solvedAt h q n
  refine ⟨?_, ?_, ?_, ?_, ?_, ?_⟩
  · simp [is_question_deps_ready_pass, check_loop_fst, List.all_eq_true]
  · simp [is_question_children_ready_pass, check_loop_fst, List.all_eq_true]
  · simp [is_question_deps_ready_pass, check_loop_snd]
  · simp [is_question_children_ready_pass, check_loop_snd]
  · intro hempty
    refine ⟨?_, fun m hm => absurd hm (Nat.not_lt_zero m)⟩
    simp [is_question_deps_ready_pass, check_loop_fst, hempty]
  · intro hempty
    refine ⟨?_, fun m hm => absurd hm (Nat.not_lt_zero m)⟩
    simp [is_question_children_ready_pass, check_loop_fst, hempty]

/-- Claim C5 witness: a node whose dependency list object is empty passes the
    dependency gate on the very first poll cycle. -/
theorem gate_pass_exact_and_total_witness :
    is_question_deps_ready_completes_at (fun _ _ => true) moduleHeap
      (Question.initDefault "w") 0 :=
  (gate_pass_exact_and_total (fun _ _ => true) moduleHeap
      (Question.initDefault "w") 0).2.2.2.2.1 rfl

/-- Claim C4 counterexample: a self-cycle — the node's dependency list object
    contains the node's own id, and the node (being gated) is never solved —
    makes the dependency wait poll forever: no cycle's check ever passes, so
    the wait never completes; no StallError or MalformedGraphError exists in
    the code. -/
theorem cyclic_gate_polls_forever :
    ¬ is_question_deps_ready_completes (fun _ _ => false) ⟨[[0], []]⟩
        (Question.init "cyc" 0 1 none none) := by
  intro hcomp
  obtain ⟨n, hn⟩ := hcomp
  simp [is_question_deps_ready_pass, check_loop, Question.init,
    ListHeap.read, Question.depsRef] at hn

/-- Claim C4 (amended): whenever the gating set of a node always contains some
    unsolved member (as happens for a cyclic node, which can never be solved
    while it is gated), the corresponding wait never completes: the source
    polls unboundedly and raises no StallError/MalformedGraphError — no such
    error exists in the code. -/
theorem unsatisfiable_gate_never_completes :
    ∀ (solvedAt : Nat → Nat → Bool) (h : ListHeap) (q : Question),
      ((∀ n, ∃ d ∈ h.read q.depsRef, solvedAt n d = false) →
        ¬ is_question_deps_ready_completes solvedAt h q) ∧
      ((∀ n, ∃ c ∈ h.read q.childrenRef, solvedAt n c = false) →
        ¬ is_question_children_ready_completes solvedAt h q) := by
  intro solvedAt h q
  constructor
  · intro hbad hcomp
    obtain ⟨n, hn⟩ := hcomp
    rw [is_question_deps_ready_pass, check_loop_fst, List.all_eq_true] at hn
    obtain ⟨d, hd, hdf⟩ := hbad n
    rw [hn d hd] at hdf
    exact Bool.noConfusion hdf
  · intro hbad hcomp
    obtain ⟨n, hn⟩ := hcomp
    rw [is_question_children_ready_pass, check_loop_fst, List.all_eq_true] at hn
    obtain ⟨c, hc, hcf⟩ := hbad n
    rw [hn c hc] at hcf
    exact Bool.noConfusion hcf

/-- Claim C4 witness: a concrete permanently-unsatisfiable dependency gate (the
    gating set holds node 3, which is never solved) never completes. -/
theorem unsatisfiable_gate_never_completes_witness :
    ¬ is_question_deps_ready_completes (fun _ _ => false) ⟨[[3], []]⟩
        (Question.init "w" 0 1 none none) :=
  (unsatisfiable_gate_never_completes (fun _ _ => false) ⟨[[3], []]⟩
      (Question.init "w" 0 1 none none)).1
    (fun n => ⟨3, by decide, rfl⟩)

/- ===== Intermediate-info pipeline (base.py lines 126-129 and 276-279).
   `Agent.process_intermediate_info` and `KagBaseModule.process_intermediate_info`
   have byte-identical bodies; the single embedding below covers both. -/

/-- An event delivered through the pipeline: either an ordinary per-node info
    dict, or the distinguished end-of-run value, a `StopAsyncIteration`
    instance. -/
inductive IntermediateInfo where
  | infoDict (entries : List (String × String)) : IntermediateInfo
  | stopAsyncIteration : IntermediateInfo

/-- A registered intermediate-process tool: an identity and its `process`
    method, which either returns (`Except.ok`) or raises (`Except.error`). -/
structure InfoTool where
  id : Nat
  process : IntermediateInfo → Except String Unit

/-- The `for info_tool in self.intermediate_process_tools:` loop with Python
    exception semantics: each tool's `process` is invoked in order; a raised
    exception aborts the loop at once and propagates (there is no try/except
    in the source).  Returns the ids of the tools actually invoked, in order,
    together with the propagated exception, if any. -/
def run_info_tools : List InfoTool → IntermediateInfo → List Nat × Option String
  | [], _ => ([], none)
  | tool :: rest, info =>
    match tool.process info with
    | .error e => ([tool.id], some e)
    | .ok _ =>
      let r := run_info_tools rest info
      (tool.id :: r.1, r.2)

/-- `process_intermediate_info` (base.py lines 276-279, identically 126-129):
    `if not isinstance(info_dict, StopAsyncIteration):` guard, then the tool
    loop.  Result: ids of tools invoked, and the exception that escaped, if
    any. -/
def process_intermediate_info (tools : List InfoTool)
    (info_dict : IntermediateInfo) : List Nat × Option String :=
  match info_dict with
  | .stopAsyncIteration => ([], none)
  | .infoDict _ => run_info_tools tools info_dict

/- ===== Helper lemma: the loop on an all-succeeding tool list. -/

theorem run_info_tools_all_ok (info : IntermediateInfo) :
    ∀ tools : List InfoTool,
      (∀ t ∈ tools, t.process info = Except.ok ()) →
      run_info_tools tools info = (tools.map InfoTool.id, none) := by
  intro tools
  induction tools with
  | nil => intro _; rfl
  | cons t rest ih =>
      intro hok
      have ht : t.process info = Except.ok () := hok t (by simp)
      have hrest : run_info_tools rest info = (rest.map InfoTool.id, none) :=
        ih (fun u hu => hok u (by simp [hu]))
      simp [run_info_tools, ht, hrest]

/- ===== Claims about the pipeline. -/

/-- Claim C2 counterexample: the claim states that every registered processor
    is invoked exactly once with every event, the termination signal included.
    With one registered tool and the `StopAsyncIteration` event, the
    `isinstance` guard skips the loop and the tool is invoked zero times. -/
theorem stop_signal_not_delivered :
    (process_intermediate_info [⟨0, fun _ => Except.ok ()⟩]
        IntermediateInfo.stopAsyncIteration).1.count 0 ≠ 1 := by
  decide

/-- Claim C2 (amended): for an ordinary per-node info dict, when no processor
    raises, every registered processor's `process` is invoked exactly once
    with that event, in registration order; the end-of-run
    `StopAsyncIteration` value is filtered out by the `isinstance` guard and
    delivered to no processor at all. -/
theorem process_intermediate_info_delivery :
    ∀ (tools : List InfoTool) (entries : List (String × String)),
      ((∀ t ∈ tools, t.process (IntermediateInfo.infoDict entries) = Except.ok ()) →
        process_intermediate_info tools (IntermediateInfo.infoDict entries)
          = (tools.map InfoTool.id, none)) ∧
      process_intermediate_info tools IntermediateInfo.stopAsyncIteration
        = ([], none) := by
  intro tools entries
  constructor
  · intro hok
    simp [process_intermediate_info]
    exact run_info_tools_all_ok (IntermediateInfo.infoDict entries) tools hok
  · rfl

/-- Claim C2 witness: two concrete well-behaved processors each receive a
    concrete per-node payload exactly once, in order. -/
theorem process_intermediate_info_delivery_witness :
    process_intermediate_info
        [⟨1, fun _ => Except.ok ()⟩, ⟨2, fun _ => Except.ok ()⟩]
        (IntermediateInfo.infoDict [("a", "b")])
      = ([1, 2], none) :=
  (process_intermediate_info_delivery
      [⟨1, fun _ => Except.ok ()⟩, ⟨2, fun _ => Except.ok ()⟩] [("a", "b")]).1
    (by intro t ht; fin_cases ht <;> rfl)

/-- Claim C7 counterexample: the claim states that an exception raised by a
    processor's `process` is caught inside the pipeline and that
    `process_intermediate_info` never raises.  With one raising tool the
    call propagates the exception (there is no try/except in the source). -/
theorem processor_exception_escapes :
    (process_intermediate_info [⟨0, fun _ => Except.error "boom"⟩]
        (IntermediateInfo.infoDict [])).2 ≠ none := by
  decide

/-- Claim C7 (amended): an exception raised by a processor's `process` during
    an ordinary event is not caught: the first raising processor aborts the
    loop — processors registered after it are not invoked — and the exception
    propagates out of `process_intermediate_info` to the caller. -/
theorem processor_exception_propagates :
    ∀ (pre post : List InfoTool) (t : InfoTool) (e : String)
      (entries : List (String × String)),
      (∀ u ∈ pre, u.process (IntermediateInfo.infoDict entries) = Except.ok ()) →
      t.process (IntermediateInfo.infoDict entries) = Except.error e →
      process_intermediate_info (pre ++ t :: post)
          (IntermediateInfo.infoDict entries)
        = (pre.map InfoTool.id ++ [t.id], some e) := by
  intro pre post t e entries hok ht
  simp only [process_intermediate_info]
  induction pre with
  | nil => simp [run_info_tools, ht]
  | cons u rest ih =>
      have hu : u.process (IntermediateInfo.infoDict entries) = Except.ok () :=
        hok u (by simp)
      have hrest := ih (fun w hw => hok w (by simp [hw]))
      simp [run_info_tools, hu, hrest]

/-- Claim C7 witness: with a well-behaved first processor, a raising second
    processor and a third processor, the call invokes the first two only and
    propagates the exception. -/
theorem processor_exception_propagates_witness :
    process_intermediate_info
        [⟨1, fun _ => Except.ok ()⟩, ⟨2, fun _ => Except.error "x"⟩,
          ⟨3, fun _ => Except.ok ()⟩]
        (IntermediateInfo.infoDict [])
      = ([1, 2], some "x") :=
  processor_exception_propagates [⟨1, fun _ => Except.ok ()⟩]
    [⟨3, fun _ => Except.ok ()⟩] ⟨2, fun _ => Except.error "x"⟩ "x" []
    (by intro u hu; fin_cases hu; rfl) rfl

/- ===== Heap of mutable string dicts (models Python dict objects such as
   `extra_output_dict`). -/

/-- `d[k] = v` on an association list: replace the first binding of `k`, or
    append a new one. -/
def setKey : List (String × String) → String → String → List (String × String)
  | [], k, v => [(k, v)]
  | (k0, v0) :: rest, k, v =>
    if k0 = k then (k0, v) :: rest else (k0, v0) :: setKey rest k v

/-- `d.get(k)` on an association list. -/
def lookupKey : List (String × String) → String → Option String
  | [], _ => none
  | (k0, v0) :: rest, k => if k0 = k then some v0 else lookupKey rest k

/-- A heap of mutable dicts; a Python dict object is a `Nat` index into it. -/
structure DictHeap where
  dicts : List (List (String × String))
deriving DecidableEq

/-- `{}`: allocate a fresh empty dict, returning the new heap and the new
    object's reference. -/
def DictHeap.alloc (h : DictHeap) : DictHeap × Nat :=
  (⟨h.dicts ++ [[]]⟩, h.dicts.length)

/-- Dereference a dict object (a dangling reference reads as empty). -/
def DictHeap.read (h : DictHeap) (r : Nat) : List (String × String) :=
  (h.dicts[r]?).getD []

/-- In-place `d[k] = v` through reference `r`. -/
def DictHeap.write (h : DictHeap) (r : Nat) (k v : String) : DictHeap :=
  ⟨h.dicts.set r (setKey (h.read r) k v)⟩

/- ===== Agent (base.py lines 243-279). -/

/-- Embedding of the `Agent` state.  Fields initialized to `None` in
    `__init__` are `Option`s; `extra_output_ref` is the reference currently
    bound to `self.extra_output_dict`; `extra_info_fetch_tools` records, for
    each fetch tool, the dict reference the tool received through
    `connect_extra_output_dict` — the tool writes through that reference
    from then on. -/
structure Agent where
  queue : Option (List Nat)
  ready_question_count : Option Nat
  solved_question_set : Option (List Nat)
  ready_question_set : Option (List Nat)
  remaining_question_set : Option (List Nat)
  extra_info_fetch_tools : List Nat
  intermediate_process_tools : List Nat
  intermediate_process_tasks : List Nat
  extra_output_ref : Nat
deriving DecidableEq

/-- `Agent.__init__` (base.py lines 244-255): scheduling fields start as
    `None`, `self.extra_output_dict = {}` allocates a dict, and the
    construction-time loop hands that same reference to every extra-info
    fetch tool via `connect_extra_output_dict`. -/
def Agent.mkAgent (h : DictHeap) (n_fetch_tools : Nat) (proc_tools : List Nat) :
    DictHeap × Agent :=
  let p := h.alloc
  (p.1,
    { queue := none
      ready_question_count := none
      solved_question_set := none
      ready_question_set := none
      remaining_question_set := none
      extra_info_fetch_tools := List.replicate n_fetch_tools p.2
      intermediate_process_tools := proc_tools
      intermediate_process_tasks := []
      extra_output_ref := p.2 })

/-- `Agent.reset_context` (base.py lines 267-274): the scheduling sets become
    empty, the count becomes 0, the queue becomes a fresh empty queue, and
    `self.extra_output_dict = {}` rebinds the field to a newly allocated
    empty dict.  The fetch tools are NOT reconnected: each still holds the
    reference it was handed at construction. -/
def Agent.reset_context (h : DictHeap) (a : Agent) : DictHeap × Agent :=
  let p := h.alloc
  (p.1,
    { a with
      remaining_question_set := some []
      ready_question_set := some []
      solved_question_set := some []
      ready_question_count := some 0
      queue := some []
      intermediate_process_tasks := []
      extra_output_ref := p.2 })

/-- `Agent.solve_problem` (base.py lines 257-262): calls `reset_context`,
    then drives `solve_problem_impl` (abstract in the source, a parameter
    here) to completion on the fresh event loop, returning its value and
    propagating its exception, if any.  The impl returns the answer and the
    final heap and agent state. -/
def Agent.solve_problem (h : DictHeap) (a : Agent)
    (impl : DictHeap → Agent → Except String (String × DictHeap × Agent)) :
    Except String (String × DictHeap × Agent) :=
  let p := Agent.reset_context h a
  impl p.1 p.2

/-- An extra-info fetch tool writing `k -> v` during a run: the write goes
    through the dict reference the tool was connected to (tool index `i`). -/
def fetch_tool_write (h : DictHeap) (a : Agent) (i : Nat) (k v : String) :
    DictHeap :=
  h.write ((a.extra_info_fetch_tools[i]?).getD 0) k v

/- ===== Claim C1: concrete run in which the single fetch tool writes
   "k" -> "v" during the run. -/

/-- A resolution body in which extra-info fetch tool 0 writes `"k" -> "v"`
    into the dict it is connected to, then the run completes normally. -/
def implWriteKV : DictHeap → Agent → Except String (String × DictHeap × Agent) :=
  fun h a => Except.ok ("answer", fetch_tool_write h a 0 "k" "v", a)

/-- Construct an Agent with one extra-info fetch tool on an empty heap, then
    run `solve_problem` with the body `implWriteKV`. -/
def c1Run : Except String (String × DictHeap × Agent) :=
  let p := Agent.mkAgent ⟨[]⟩ 1 []
  Agent.solve_problem p.1 p.2 implWriteKV

/-- After the run: the value of key "k" in the dict the Agent's
    `extra_output_dict` field refers to. -/
def c1_agent_view : Option String :=
  match c1Run with
  | Except.ok r => lookupKey (r.2.1.read r.2.2.extra_output_ref) "k"
  | Except.error _ => some "run failed"

/-- After the run: the value of key "k" in the dict fetch tool 0 is connected
    to. -/
def c1_fetch_tool_view : Option String :=
  match c1Run with
  | Except.ok r =>
      lookupKey (r.2.1.read ((r.2.2.extra_info_fetch_tools[0]?).getD 99)) "k"
  | Except.error _ => some "run failed"

/-- Claim C1: the claim states that after `solve_problem` returns, the Agent's
    `extra_output_dict` contains the `"k" -> "v"` mapping the fetch tool wrote
    during the run.  In the code, `reset_context` (invoked by `solve_problem`
    before the run) rebinds `self.extra_output_dict` to a fresh dict without
    reconnecting the fetch tools, so the tool's write lands in the
    construction-time dict and the Agent's per-run dict stays empty: the
    Agent-side lookup of "k" yields nothing while the tool-side dict does hold
    "v". -/
theorem fetch_tool_write_lost_to_agent :
    c1_agent_view = none ∧ c1_fetch_tool_view = some "v" := by
  constructor <;> rfl

/- ===== Claim C6. -/

/-- Claim C6: every `solve_problem` call first resets the per-run state — the
    three scheduling sets become empty, the ready count becomes 0, the work
    queue becomes a fresh empty queue, and `extra_output_dict` is rebound to a
    freshly allocated empty dict (a reference distinct from every dict existing
    before the call) — and only then drives `solve_problem_impl`, whose value
    `solve_problem` returns unchanged and whose exception it propagates
    unchanged. -/
theorem solve_problem_resets_then_runs_impl :
    ∀ (h : DictHeap) (a : Agent)
      (impl : DictHeap → Agent → Except String (String × DictHeap × Agent)),
      (Agent.reset_context h a).2.remaining_question_set = some [] ∧
      (Agent.reset_context h a).2.ready_question_set = some [] ∧
      (Agent.reset_context h a).2.solved_question_set = some [] ∧
      (Agent.reset_context h a).2.ready_question_count = some 0 ∧
      (Agent.reset_context h a).2.queue = some [] ∧
      (Agent.reset_context h a).2.intermediate_process_tasks = [] ∧
      (Agent.reset_context h a).1.read
          (Agent.reset_context h a).2.extra_output_ref = [] ∧
      (∀ r, r < h.dicts.length →
        (Agent.reset_context h a).2.extra_output_ref ≠ r) ∧
      Agent.solve_problem h a impl
        = impl (Agent.reset_context h a).1 (Agent.reset_context h a).2 := by
  intro h a impl
  refine ⟨rfl, rfl, rfl, rfl, rfl, rfl, ?_, ?_, rfl⟩
  · show (DictHeap.mk (h.dicts ++ [[]])).read h.dicts.length = []
    simp [DictHeap.read, List.getElem?_append_right]
  · intro r hr
    show h.dicts.length ≠ r
    omega

/-- Claim C6 witness: on a concrete heap holding one dict and a concrete
    freshly constructed Agent, the reset state handed to the impl has a dict
    reference distinct from the pre-existing reference 0, and `solve_problem`
    returns exactly what the impl returns. -/
theorem solve_problem_resets_then_runs_impl_witness :
    (Agent.reset_context (Agent.mkAgent ⟨[]⟩ 1 []).1
        (Agent.mkAgent ⟨[]⟩ 1 []).2).2.extra_output_ref ≠ 0 :=
  ((solve_problem_resets_then_runs_impl (Agent.mkAgent ⟨[]⟩ 1 []).1
      (Agent.mkAgent ⟨[]⟩ 1 []).2
      (fun _ _ => Except.error "e")).2.2.2.2.2.2.2.1) 0 (by decide)
